import Mathlib

/-!
Verification development for the RecallBricks Python SDK
(`src/adapters/python/recallbricks`): a shallow embedding of
`runtime.py` and `types.py` in Lean 4, together with theorems settling
the spec claims about session construction, local process supervision,
the RPC call contract and the error taxonomy.

Modelling conventions:
- JSON bodies are values of the inductive `JVal`; Python truthiness is
  `JVal.truthy`.
- An HTTP exchange is mediated by a transport oracle: `Transport` maps a
  request to either a connection-level failure (`requests` would raise a
  `RequestException`) or an `HResp` (status, text, decoded JSON body).
  For the construction path, whose probe loop repeats the same request,
  the oracle `TransportT` is additionally indexed by the number of HTTP
  calls issued so far.
- Python exceptions escaping a method are the `.error` side of `Except
  PyErr`; `PyErr` distinguishes the SDK's own typed errors
  (`APIError`, `RecallBricksError`) from raw library exceptions
  (`requests.exceptions.RequestException`, `subprocess.TimeoutExpired`,
  `TypeError`/`KeyError`/JSON decode errors).
- The spawned child process is a `ProcState` (whether it has exited,
  whether it has been reaped by `wait`/`poll`, and how many terminate
  signals were delivered).  `Popen.send_signal` does nothing when the
  process has already completed, per the `subprocess` documentation;
  whether the child actually exits within the 5 s grace window of
  `wait(timeout=5)` is the boolean parameter `exitsOnTerm`.
-/

/-- A JSON value, as produced by `response.json()`. Numbers are modelled
as integers (no claim depends on float semantics). Objects are
association lists with the first binding winning on lookup. -/
inductive JVal where
  | null : JVal
  | bool : Bool → JVal
  | num : Int → JVal
  | str : String → JVal
  | arr : List JVal → JVal
  | obj : List (String × JVal) → JVal


/-- Python truthiness of a JSON value (`bool(v)`). -/
def JVal.truthy : JVal → Bool
  | .null => false
  | .bool b => b
  | .num n => n != 0
  | .str s => s != ""
  | .arr xs => !xs.isEmpty
  | .obj fs => !fs.isEmpty

/-- Key lookup in an object's field list (first binding wins). -/
def jLookup (k : String) : List (String × JVal) → Option JVal
  | [] => none
  | (k', v) :: rest => if k' == k then some v else jLookup k rest

/-- Exceptions that may escape an SDK method, covering both the SDK's
error taxonomy (`RecallBricksError`, `APIError`) and raw Python/library
exceptions that the source does not catch. -/
inductive PyErr where
  | recallBricksError : String → PyErr
  | apiError : String → Nat → PyErr
  | requestsError : PyErr
  | timeoutExpired : PyErr
  | typeErr : PyErr
  | keyErr : PyErr
  | jsonErr : PyErr


/-- HTTP method of a request issued through `requests`. -/
inductive Method where
  | get : Method
  | post : Method


/-- An HTTP request: method, full URL, optional JSON payload. -/
structure Request where
  method : Method
  url : String
  body : Option JVal


/-- An HTTP response: status code, body text, and the result of
`response.json()` (`none` when the body is not valid JSON, in which
case `.json()` raises). -/
structure HResp where
  status : Nat
  text : String
  jsonBody : Option JVal


/-- Outcome of one HTTP exchange: either a connection-level failure /
timeout (`requests` raises a `RequestException`; no HTTP exchange
occurred) or a response. -/
inductive TransportResult where
  | connFail : TransportResult
  | resp : HResp → TransportResult


/-- A stateless transport oracle: what one HTTP exchange yields. -/
def Transport : Type := Request → TransportResult

/-- A time-indexed transport oracle for the construction path: the first
argument is the number of HTTP calls issued so far by this session. -/
def TransportT : Type := Nat → Request → TransportResult

/-- Embeds `data[k]` on a decoded JSON value: `KeyError` when the key is
missing, `TypeError` when the value is not a dict. -/
def pyIndex (data : JVal) (k : String) : Except PyErr JVal :=
  match data with
  | .obj fs =>
      match jLookup k fs with
      | some v => .ok v
      | none => .error .keyErr
  | _ => .error .typeErr

/-- Embeds `data.get(k)` on a decoded JSON value: `none` when the key is
missing, `AttributeError` (modelled as `TypeError`) when the value is
not a dict. -/
def pyGet (data : JVal) (k : String) : Except PyErr (Option JVal) :=
  match data with
  | .obj fs => .ok (jLookup k fs)
  | _ => .error .typeErr

/-- Embeds `data.get(k, default)` on a decoded JSON value. -/
def pyGetD (data : JVal) (k : String) (dflt : JVal) : Except PyErr JVal :=
  match data with
  | .obj fs => .ok ((jLookup k fs).getD dflt)
  | _ => .error .typeErr

/-- Whether a keyword-argument dict is acceptable for a dataclass
constructor: every required key present, every key allowed.  Python's
dataclass `__init__` raises `TypeError` otherwise and performs no type
checking on the values. -/
def kwargsOk (required optional : List String) (fs : List (String × JVal)) : Bool :=
  required.all (fun k => (jLookup k fs).isSome) &&
    fs.all (fun kv => required.contains kv.1 || optional.contains kv.1)

/-- Embeds `LLMMessage` from `types.py` (role, content).  Values are not type
checked by the dataclass, so both fields are JSON values. -/
structure LLMMessageR where
  role : JVal
  content : JVal


/-- Embeds `LLMMessage(**msg)`. -/
def llmMessageOfKwargs (v : JVal) : Except PyErr LLMMessageR :=
  match v with
  | .obj fs =>
      if kwargsOk ["role", "content"] [] fs then
        .ok ⟨(jLookup "role" fs).getD .null, (jLookup "content" fs).getD .null⟩
      else .error .typeErr
  | _ => .error .typeErr

/-- Embeds `ChatMetadata` from `types.py`: provider, model, context_loaded,
identity_validated, auto_saved are required; `tokens_used` defaults to
`None`. -/
structure ChatMetadataR where
  provider : JVal
  model : JVal
  context_loaded : JVal
  identity_validated : JVal
  auto_saved : JVal
  tokens_used : Option JVal


/-- Embeds `ChatMetadata(**d)`: keyword check only, values stored verbatim;
an absent `tokens_used` key yields `None`. -/
def chatMetadataOfKwargs (v : JVal) : Except PyErr ChatMetadataR :=
  match v with
  | .obj fs =>
      if kwargsOk ["provider", "model", "context_loaded", "identity_validated",
          "auto_saved"] ["tokens_used"] fs then
        .ok { provider := (jLookup "provider" fs).getD .null
              model := (jLookup "model" fs).getD .null
              context_loaded := (jLookup "context_loaded" fs).getD .null
              identity_validated := (jLookup "identity_validated" fs).getD .null
              auto_saved := (jLookup "auto_saved" fs).getD .null
              tokens_used := jLookup "tokens_used" fs }
      else .error .typeErr
  | _ => .error .typeErr

/-- Embeds `ChatResponse` from `types.py`. -/
structure ChatResponseR where
  response : JVal
  metadata : ChatMetadataR


/-- Embeds `Memory` from `types.py`: id, content, type, importance, timestamp
required; metadata and tags optional (default `None`). -/
structure MemoryR where
  id : JVal
  content : JVal
  type : JVal
  importance : JVal
  timestamp : JVal
  metadata : Option JVal
  tags : Option JVal


/-- Embeds `Memory(**m)`. -/
def memoryOfKwargs (v : JVal) : Except PyErr MemoryR :=
  match v with
  | .obj fs =>
      if kwargsOk ["id", "content", "type", "importance", "timestamp"]
          ["metadata", "tags"] fs then
        .ok { id := (jLookup "id" fs).getD .null
              content := (jLookup "content" fs).getD .null
              type := (jLookup "type" fs).getD .null
              importance := (jLookup "importance" fs).getD .null
              timestamp := (jLookup "timestamp" fs).getD .null
              metadata := jLookup "metadata" fs
              tags := jLookup "tags" fs }
      else .error .typeErr
  | _ => .error .typeErr

/-- Embeds `[Memory(**m) for m in xs]`: `xs` must be a JSON array of dicts;
iterating any non-list value ends in `TypeError` (either at the
iteration itself or at `Memory(**elem)`). -/
def memoryListOf (v : JVal) : Except PyErr (List MemoryR) :=
  match v with
  | .arr xs => xs.mapM memoryOfKwargs
  | _ => .error .typeErr

/-- Embeds `MemoryContext` from `types.py` as built by `get_context` (the
fields read with `.get(..., default)` are stored verbatim). -/
structure MemoryContextR where
  recent_memories : List MemoryR
  relevant_memories : List MemoryR
  predicted_context : JVal
  total_memories : JVal
  last_updated : JVal


/-- Embeds `AgentIdentity` from `types.py`: id, name, purpose required; traits,
rules, created_at, updated_at optional with defaults. -/
structure AgentIdentityR where
  id : JVal
  name : JVal
  purpose : JVal
  traits : Option JVal
  rules : Option JVal
  created_at : Option JVal
  updated_at : Option JVal


/-- Embeds `AgentIdentity(**identity)`. -/
def agentIdentityOfKwargs (v : JVal) : Except PyErr AgentIdentityR :=
  match v with
  | .obj fs =>
      if kwargsOk ["id", "name", "purpose"]
          ["traits", "rules", "created_at", "updated_at"] fs then
        .ok { id := (jLookup "id" fs).getD .null
              name := (jLookup "name" fs).getD .null
              purpose := (jLookup "purpose" fs).getD .null
              traits := jLookup "traits" fs
              rules := jLookup "rules" fs
              created_at := jLookup "created_at" fs
              updated_at := jLookup "updated_at" fs }
      else .error .typeErr
  | _ => .error .typeErr

/-- Embeds `ValidationStats` from `types.py` as built by
`get_validation_stats`. -/
structure ValidationStatsR where
  total : JVal
  by_type : JVal
  by_severity : JVal


/-- Python truthiness of the result of `data.get(k)` (`None` is falsy). -/
def optTruthy : Option JVal → Bool
  | none => false
  | some v => v.truthy

/-- The readiness probe request issued by `_start_local_runtime`
(`requests.get(f"{url}/health", timeout=1)`). -/
def healthRequest (url : String) : Request :=
  { method := .get, url := url ++ "/health", body := none }

/-- The init handshake request issued by `_initialize_remote_runtime`
(`requests.post(f"{url}/init", json=..., timeout=30)`). -/
def initRequest (url : String) (optsDict : JVal) : Request :=
  { method := .post, url := url ++ "/init", body := some optsDict }

/-- Embeds `AgentRuntime._initialize_remote_runtime`: POST the configuration
dict to the init route; non-200 raises `APIError` with the response
status and body text; a connection failure is not caught, so the raw
`requests` exception escapes. -/
def initRemoteRuntime (t : Transport) (url : String) (optsDict : JVal) :
    Except PyErr Unit :=
  match t (initRequest url optsDict) with
  | .connFail => .error .requestsError
  | .resp rsp =>
      if rsp.status ≠ 200 then
        .error (.apiError ("Failed to initialize runtime: " ++ rsp.text) rsp.status)
      else .ok ()

/-- The JSON rendering of one `LLMMessage` in the chat payload
(`{"role": msg.role, "content": msg.content}`). -/
def msgToJson (m : LLMMessageR) : JVal :=
  .obj [("role", m.role), ("content", m.content)]

/-- Python truthiness of the `conversation_history` argument
(`if conversation_history:`): `None` and the empty list are both
falsy. -/
def historyTruthy : Option (List LLMMessageR) → Bool
  | none => false
  | some l => !l.isEmpty

/-- The request payload built by `AgentRuntime.chat`: always
`{"message": ...}`; the `conversationHistory` key is added only when
the argument is truthy (non-`None` and non-empty). -/
def chatPayload (message : String) (hist : Option (List LLMMessageR)) : JVal :=
  if historyTruthy hist then
    .obj [("message", .str message),
          ("conversationHistory", .arr ((hist.getD []).map msgToJson))]
  else
    .obj [("message", .str message)]

/-- Embeds `AgentRuntime.chat`: POST the payload to the chat route; non-200
raises `APIError`; a 200 body is decoded into a `ChatResponse` via
`data["response"]` and `ChatMetadata(**data["metadata"])`. -/
def chat (t : Transport) (url : String) (message : String)
    (conversation_history : Option (List LLMMessageR)) :
    Except PyErr ChatResponseR :=
  match t { method := .post, url := url ++ "/chat",
            body := some (chatPayload message conversation_history) } with
  | .connFail => .error .requestsError
  | .resp rsp =>
      if rsp.status ≠ 200 then
        .error (.apiError ("Chat request failed: " ++ rsp.text) rsp.status)
      else
        match rsp.jsonBody with
        | none => .error .jsonErr
        | some data => do
            let rv ← pyIndex data "response"
            let mdv ← pyIndex data "metadata"
            let md ← chatMetadataOfKwargs mdv
            .ok { response := rv, metadata := md }

/-- Embeds `AgentRuntime.get_context`: GET the context route; non-200 raises
`APIError`; a falsy / absent `context` field in a 200 body yields
`None`; otherwise the context record is decoded with per-field
defaults. -/
def get_context (t : Transport) (url : String) :
    Except PyErr (Option MemoryContextR) :=
  match t { method := .get, url := url ++ "/context", body := none } with
  | .connFail => .error .requestsError
  | .resp rsp =>
      if rsp.status ≠ 200 then
        .error (.apiError ("Failed to get context: " ++ rsp.text) rsp.status)
      else
        match rsp.jsonBody with
        | none => .error .jsonErr
        | some data => do
            let c ← pyGet data "context"
            if optTruthy c = false then
              .ok none
            else do
              let ctx := c.getD .null
              let rmv ← pyGetD ctx "recentMemories" (.arr [])
              let rm ← memoryListOf rmv
              let rlv ← pyGetD ctx "relevantMemories" (.arr [])
              let rl ← memoryListOf rlv
              let pc ← pyGetD ctx "predictedContext" (.arr [])
              let tm ← pyGetD ctx "totalMemories" (.num 0)
              let lu ← pyGetD ctx "lastUpdated" (.str "")
              .ok (some { recent_memories := rm, relevant_memories := rl,
                          predicted_context := pc, total_memories := tm,
                          last_updated := lu })

/-- Embeds `AgentRuntime.get_identity`: GET the identity route; non-200 raises
`APIError`; a falsy / absent `identity` field in a 200 body yields
`None`; otherwise `AgentIdentity(**data["identity"])`. -/
def get_identity (t : Transport) (url : String) :
    Except PyErr (Option AgentIdentityR) :=
  match t { method := .get, url := url ++ "/identity", body := none } with
  | .connFail => .error .requestsError
  | .resp rsp =>
      if rsp.status ≠ 200 then
        .error (.apiError ("Failed to get identity: " ++ rsp.text) rsp.status)
      else
        match rsp.jsonBody with
        | none => .error .jsonErr
        | some data => do
            let c ← pyGet data "identity"
            if optTruthy c = false then
              .ok none
            else do
              let idv ← pyIndex data "identity"
              let ident ← agentIdentityOfKwargs idv
              .ok (some ident)

/-- Embeds `AgentRuntime.refresh_context`: POST the refresh route; non-200
raises `APIError`; a 200 response returns with no body decoding. -/
def refresh_context (t : Transport) (url : String) : Except PyErr Unit :=
  match t { method := .post, url := url ++ "/context/refresh", body := none } with
  | .connFail => .error .requestsError
  | .resp rsp =>
      if rsp.status ≠ 200 then
        .error (.apiError ("Failed to refresh context: " ++ rsp.text) rsp.status)
      else .ok ()

/-- Embeds `[LLMMessage(**msg) for msg in v]`. -/
def llmMessageListOf (v : JVal) : Except PyErr (List LLMMessageR) :=
  match v with
  | .arr xs => xs.mapM llmMessageOfKwargs
  | _ => .error .typeErr

/-- Embeds `AgentRuntime.get_conversation_history`: GET the history route;
non-200 raises `APIError`; a 200 body yields
`[LLMMessage(**msg) for msg in data.get("history", [])]`. -/
def get_conversation_history (t : Transport) (url : String) :
    Except PyErr (List LLMMessageR) :=
  match t { method := .get, url := url ++ "/history", body := none } with
  | .connFail => .error .requestsError
  | .resp rsp =>
      if rsp.status ≠ 200 then
        .error (.apiError ("Failed to get history: " ++ rsp.text) rsp.status)
      else
        match rsp.jsonBody with
        | none => .error .jsonErr
        | some data => do
            let hv ← pyGetD data "history" (.arr [])
            llmMessageListOf hv

/-- Embeds `AgentRuntime.clear_conversation_history`: POST the clear route;
non-200 raises `APIError`. -/
def clear_conversation_history (t : Transport) (url : String) :
    Except PyErr Unit :=
  match t { method := .post, url := url ++ "/history/clear", body := none } with
  | .connFail => .error .requestsError
  | .resp rsp =>
      if rsp.status ≠ 200 then
        .error (.apiError ("Failed to clear history: " ++ rsp.text) rsp.status)
      else .ok ()

/-- Embeds `AgentRuntime.flush`: POST the flush route; non-200 raises
`APIError`. -/
def flush (t : Transport) (url : String) : Except PyErr Unit :=
  match t { method := .post, url := url ++ "/flush", body := none } with
  | .connFail => .error .requestsError
  | .resp rsp =>
      if rsp.status ≠ 200 then
        .error (.apiError ("Failed to flush: " ++ rsp.text) rsp.status)
      else .ok ()

/-- Embeds `AgentRuntime.get_validation_stats`: GET the stats route; non-200
raises `APIError`; a falsy / absent `stats` field in a 200 body yields
`None`; otherwise the three aggregate fields are read with `stats[...]`
indexing. -/
def get_validation_stats (t : Transport) (url : String) :
    Except PyErr (Option ValidationStatsR) :=
  match t { method := .get, url := url ++ "/stats/validation", body := none } with
  | .connFail => .error .requestsError
  | .resp rsp =>
      if rsp.status ≠ 200 then
        .error (.apiError ("Failed to get validation stats: " ++ rsp.text)
          rsp.status)
      else
        match rsp.jsonBody with
        | none => .error .jsonErr
        | some data => do
            let c ← pyGet data "stats"
            if optTruthy c = false then
              .ok none
            else do
              let stats ← pyIndex data "stats"
              let tv ← pyIndex stats "total"
              let bt ← pyIndex stats "byType"
              let bs ← pyIndex stats "bySeverity"
              .ok (some { total := tv, by_type := bt, by_severity := bs })

/-- The keyword parameters of `AgentRuntime.__init__`, with the source's
defaults.  Integer parameters are modelled as `Int` (Python integers are
signed and the constructor performs no range check). -/
structure Config where
  agent_id : String
  user_id : String
  api_url : String := "https://recallbricks-api-clean.onrender.com"
  llm_provider : String := "anthropic"
  llm_api_key : Option String := none
  llm_model : Option String := none
  tier : String := "starter"
  auto_save : Bool := true
  validate_identity : Bool := true
  cache_enabled : Bool := true
  cache_ttl : Int := 300000
  max_context_tokens : Int := 4000
  debug : Bool := false
  use_local_runtime : Bool := false

/-- Embeds `RuntimeOptions` from `types.py` as stored on `self.options`. -/
structure RuntimeOptionsR where
  agent_id : String
  user_id : String
  api_url : String
  llm_provider : String
  llm_api_key : Option String
  llm_model : Option String
  tier : String
  auto_save : Bool
  validate_identity : Bool
  cache_enabled : Bool
  cache_ttl : Int
  max_context_tokens : Int
  debug : Bool

/-- Python's `a or b` on an optional string: falls through to `b` when
`a` is `None` or the empty string (both falsy). -/
def pyOrStr (a fb : Option String) : Option String :=
  match a with
  | some s => if s == "" then fb else some s
  | none => fb

/-- The `RuntimeOptions` value built by `AgentRuntime.__init__`:
all parameters are stored verbatim except `llm_api_key`, which falls
back to the `RECALLBRICKS_API_KEY` environment variable
(`llm_api_key or os.getenv(...)`).  No validation is performed. -/
def mkRuntimeOptions (cfg : Config) (envKey : Option String) : RuntimeOptionsR :=
  { agent_id := cfg.agent_id
    user_id := cfg.user_id
    api_url := cfg.api_url
    llm_provider := cfg.llm_provider
    llm_api_key := pyOrStr cfg.llm_api_key envKey
    llm_model := cfg.llm_model
    tier := cfg.tier
    auto_save := cfg.auto_save
    validate_identity := cfg.validate_identity
    cache_enabled := cfg.cache_enabled
    cache_ttl := cfg.cache_ttl
    max_context_tokens := cfg.max_context_tokens
    debug := cfg.debug }

/-- An optional string as a JSON value (`None` serialises to null). -/
def jStrOpt : Option String → JVal
  | none => .null
  | some s => .str s

/-- Embeds `AgentRuntime._options_to_dict`: the camel-cased init payload. -/
def optionsToDict (o : RuntimeOptionsR) : JVal :=
  .obj [("agentId", .str o.agent_id),
        ("userId", .str o.user_id),
        ("apiUrl", .str o.api_url),
        ("llmProvider", .str o.llm_provider),
        ("llmApiKey", jStrOpt o.llm_api_key),
        ("llmModel", jStrOpt o.llm_model),
        ("tier", .str o.tier),
        ("autoSave", .bool o.auto_save),
        ("validateIdentity", .bool o.validate_identity),
        ("cacheEnabled", .bool o.cache_enabled),
        ("cacheTTL", .num o.cache_ttl),
        ("maxContextTokens", .num o.max_context_tokens),
        ("debug", .bool o.debug)]

/-- OS-level state of the spawned child process: whether it has exited,
whether its exit status has been reaped by `poll`/`wait`, and how many
terminate signals have been delivered to it. -/
structure ProcState where
  exited : Bool
  reaped : Bool
  termSignals : Nat

/-- The child immediately after `subprocess.Popen(...)`: running, not
reaped, no signal delivered yet. -/
def spawnedProc : ProcState :=
  { exited := false, reaped := false, termSignals := 0 }

/-- Embeds `Popen.terminate()` (= `send_signal(SIGTERM)`): per the `subprocess`
documentation it first polls and does nothing if the process has already
completed; otherwise the signal is delivered, and whether the child then
exits within the grace window is the parameter `exitsOnTerm`. -/
def popenTerminate (exitsOnTerm : Bool) (p : ProcState) : ProcState :=
  if p.exited then { p with reaped := true }
  else { p with termSignals := p.termSignals + 1, exited := exitsOnTerm }

/-- Embeds `Popen.wait(timeout=5)`: returns (reaping the status) once the child
has exited, and raises `TimeoutExpired` if it is still running when the
grace period ends. -/
def popenWait5 (p : ProcState) : ProcState × Option PyErr :=
  if p.exited then ({ p with reaped := true }, none)
  else (p, some .timeoutExpired)

/-- Embeds `AgentRuntime._stop_local_runtime`: a no-op when no process handle
is stored (`if self._runtime_process:`), otherwise `terminate()`
followed by `wait(timeout=5)`.  The handle is never cleared, so a later
call runs the same path again.  Returns the process state after the
call and the exception the call raises, if any. -/
def stopLocalRuntime (exitsOnTerm : Bool) :
    Option ProcState → Option ProcState × Option PyErr
  | none => (none, none)
  | some p =>
      let p1 := popenTerminate exitsOnTerm p
      let r := popenWait5 p1
      (some r.1, r.2)

/-- The fixed local endpoint chosen by `_start_local_runtime`
(`port = 3000`). -/
def localRuntimeUrl : String := "http://localhost:3000"

/-- Whether the readiness probe at call index `i` would see a 200
response (`response.status_code == 200`). -/
def probeReadyAt (t : TransportT) (url : String) (i : Nat) : Bool :=
  match t i (healthRequest url) with
  | .connFail => false
  | .resp rsp => rsp.status == 200

/-- The bounded readiness loop of `_start_local_runtime`
(`for _ in range(30): ...`): each iteration issues one GET to the health
route at call index `i`; a connection-level failure sleeps 100 ms and
retries, a non-200 response retries immediately, a 200 response stops
the loop.  Returns whether a 200 was seen and how many probes were
issued. -/
def probeLoop (t : TransportT) (url : String) : Nat → Nat → Bool × Nat
  | 0, _ => (false, 0)
  | fuel + 1, i =>
      match t i (healthRequest url) with
      | .connFail =>
          let r := probeLoop t url fuel (i + 1)
          (r.1, r.2 + 1)
      | .resp rsp =>
          if rsp.status == 200 then (true, 1)
          else
            let r := probeLoop t url fuel (i + 1)
            (r.1, r.2 + 1)

/-- What `_start_local_runtime` leaves behind: the exception it raises
(if any), the state of the spawned child, the chosen endpoint, whether
the `atexit` cleanup hook was registered, the number of readiness probes
issued, and the list of HTTP requests issued. -/
structure StartOutcome where
  err : Option PyErr
  proc : Option ProcState
  runtime_url : String
  atexitRegistered : Bool
  probes : Nat
  log : List Request

/-- Embeds `AgentRuntime._start_local_runtime`: spawn the child, poll the
health route up to 30 times, raise `RecallBricksError` when the loop
exhausts (the `for`/`else` branch), and only after a successful probe
register the `atexit` cleanup and run the init handshake.  On the
failure path the child is neither terminated nor registered for
cleanup. -/
def startLocalRuntime (t : TransportT) (optsDict : JVal) : StartOutcome :=
  let url := localRuntimeUrl
  let pr := probeLoop t url 30 0
  if pr.1 then
    let initRes := initRemoteRuntime (fun req => t pr.2 req) url optsDict
    { err := match initRes with
        | .ok _ => none
        | .error e => some e
      proc := some spawnedProc
      runtime_url := url
      atexitRegistered := true
      probes := pr.2
      log := List.replicate pr.2 (healthRequest url) ++ [initRequest url optsDict] }
  else
    { err := some (.recallBricksError "Failed to start local runtime server")
      proc := some spawnedProc
      runtime_url := url
      atexitRegistered := false
      probes := pr.2
      log := List.replicate pr.2 (healthRequest url) }

/-- The fields of a fully constructed `AgentRuntime` object. -/
structure Session where
  agent_id : String
  user_id : String
  api_url : String
  debug : Bool
  use_local_runtime : Bool
  options : RuntimeOptionsR
  runtime_process : Option ProcState
  runtime_url : Option String

/-- The observable outcome of running `AgentRuntime.__init__`:
the constructed object or the exception it raises, the state of any
spawned child after construction returns or raises, how many child
processes were spawned, whether the `atexit` hook was registered, the
number of readiness probes issued, and the full HTTP request log. -/
structure InitOutcome where
  res : Except PyErr Session
  proc : Option ProcState
  spawns : Nat
  atexitRegistered : Bool
  probes : Nat
  log : List Request

/-- Embeds `AgentRuntime.__init__`: build and store `RuntimeOptions` (no
validation), then either start and probe the local runtime
(`use_local_runtime`) or point at the remote endpoint, and finally run
the init handshake.  `envKey` is `os.getenv("RECALLBRICKS_API_KEY")`;
`t` answers the HTTP exchanges in order. -/
def agentRuntimeInit (envKey : Option String) (t : TransportT) (cfg : Config) :
    InitOutcome :=
  let opts := mkRuntimeOptions cfg envKey
  if cfg.use_local_runtime then
    let so := startLocalRuntime t (optionsToDict opts)
    { res := match so.err with
        | some e => .error e
        | none => .ok { agent_id := cfg.agent_id, user_id := cfg.user_id,
                        api_url := cfg.api_url, debug := cfg.debug,
                        use_local_runtime := true, options := opts,
                        runtime_process := so.proc,
                        runtime_url := some so.runtime_url }
      proc := so.proc
      spawns := 1
      atexitRegistered := so.atexitRegistered
      probes := so.probes
      log := so.log }
  else
    let initRes := initRemoteRuntime (fun req => t 0 req) cfg.api_url
      (optionsToDict opts)
    { res := match initRes with
        | .error e => .error e
        | .ok _ => .ok { agent_id := cfg.agent_id, user_id := cfg.user_id,
                         api_url := cfg.api_url, debug := cfg.debug,
                         use_local_runtime := false, options := opts,
                         runtime_process := none,
                         runtime_url := some cfg.api_url }
      proc := none
      spawns := 0
      atexitRegistered := false
      probes := 0
      log := [initRequest cfg.api_url (optionsToDict opts)] }

/-- A transport on which every exchange fails at the connection level. -/
def failTransport : Transport := fun _ => .connFail

/-- An indexed transport on which every exchange fails at the connection
level (a child that never answers the readiness route). -/
def failTransportT : TransportT := fun _ _ => .connFail

/-- A transport answering every request with the given response. -/
def constResp (rsp : HResp) : Transport := fun _ => .resp rsp

/-- An indexed transport answering 200 with an empty JSON object to
every request. -/
def t200 : TransportT :=
  fun _ _ => .resp { status := 200, text := "", jsonBody := some (.obj []) }

/-- An indexed transport answering 500 to every request. -/
def t500 : TransportT :=
  fun _ _ => .resp { status := 500, text := "boom", jsonBody := none }

/-- An indexed transport whose first two exchanges fail at the
connection level and which answers 200 from the third exchange on:
the readiness probe first succeeds on attempt 3. -/
def tReadyAt3 : TransportT :=
  fun i _ =>
    if 2 ≤ i then .resp { status := 200, text := "", jsonBody := some (.obj []) }
    else .connFail

/-- An indexed transport whose first exchange answers 204 No Content
and which answers 200 from the second exchange on: the readiness probe
sees a 2xx success status already on attempt 1, but the 200 it tests
for only on attempt 2. -/
def t204first : TransportT :=
  fun i _ =>
    if i == 0 then .resp { status := 204, text := "No Content",
                           jsonBody := some (.obj []) }
    else .resp { status := 200, text := "", jsonBody := some (.obj []) }

/-- An indexed transport answering 204 No Content to every exchange:
every readiness probe sees a 2xx success status, never a 200. -/
def t204always : TransportT :=
  fun _ _ => .resp { status := 204, text := "No Content",
                     jsonBody := some (.obj []) }

/-- A local-supervised configuration. -/
def cfgLocalW : Config :=
  { agent_id := "a1", user_id := "u1", use_local_runtime := true }

/-- A remote-mode configuration. -/
def cfgRemoteW : Config :=
  { agent_id := "a1", user_id := "u1", api_url := "http://x",
    use_local_runtime := false }

/-- A configuration violating the spec's data-model invariant: empty
agent and user identifiers, negative cache TTL and token budget. -/
def cfgInvalid : Config :=
  { agent_id := "", user_id := "", api_url := "http://x",
    cache_ttl := -1, max_context_tokens := -1, use_local_runtime := false }

/-- A well-formed chat response body whose metadata carries a negative
`tokens_used` value. -/
def chatBodyNegTokens : JVal :=
  .obj [("response", .str "hi"),
        ("metadata",
          .obj [("provider", .str "anthropic"), ("model", .str "claude"),
                ("context_loaded", .bool true),
                ("identity_validated", .bool true),
                ("auto_saved", .bool true), ("tokens_used", .num (-5))])]

/-- Terminate signals delivered to an optional process handle. -/
def termSignalsOf : Option ProcState → Nat
  | none => 0
  | some p => p.termSignals

/-- The metadata field list of `chatBodyNegTokens` without the
`tokens_used` key. -/
def metadataNoTokens : List (String × JVal) :=
  [("provider", .str "anthropic"), ("model", .str "claude"),
   ("context_loaded", .bool true), ("identity_validated", .bool true),
   ("auto_saved", .bool true)]

theorem probeLoop_snd_le (t : TransportT) (url : String) :
    ∀ fuel i, (probeLoop t url fuel i).2 ≤ fuel := by
  intro fuel
  induction fuel with
  | zero => intro i; simp [probeLoop]
  | succ n ih =>
      intro i
      unfold probeLoop
      cases h : t i (healthRequest url) with
      | connFail =>
          simpa using Nat.add_le_add_right (ih (i + 1)) 1
      | resp rsp =>
          by_cases hs : rsp.status == 200
          · simp [hs]
          · simpa [hs] using Nat.add_le_add_right (ih (i + 1)) 1

theorem probeLoop_first_success (t : TransportT) (url : String) :
    ∀ fuel a i, a < fuel → probeReadyAt t url (i + a) = true →
      (∀ b, b < a → probeReadyAt t url (i + b) = false) →
      probeLoop t url fuel i = (true, a + 1) := by
  intro fuel
  induction fuel with
  | zero => intro a i ha; exact absurd ha (Nat.not_lt_zero a)
  | succ n ih =>
      intro a i ha hready hprev
      cases a with
      | zero =>
          rw [Nat.add_zero] at hready
          unfold probeReadyAt at hready
          unfold probeLoop
          cases h : t i (healthRequest url) with
          | connFail => rw [h] at hready; exact absurd hready (by simp)
          | resp rsp =>
              rw [h] at hready
              simp only [] at hready
              simp [hready]
      | succ a' =>
          have h0 : probeReadyAt t url i = false := by
            have hb := hprev 0 (Nat.succ_pos a')
            rwa [Nat.add_zero] at hb
          have hrec : probeLoop t url n (i + 1) = (true, a' + 1) := by
            apply ih a' (i + 1) (Nat.lt_of_succ_lt_succ ha)
            · have hx : i + 1 + a' = i + (a' + 1) := by omega
              rw [hx]; exact hready
            · intro b hb
              have hx : i + 1 + b = i + (b + 1) := by omega
              rw [hx]; exact hprev (b + 1) (Nat.succ_lt_succ hb)
          unfold probeReadyAt at h0
          unfold probeLoop
          cases h : t i (healthRequest url) with
          | connFail => simp [hrec]
          | resp rsp =>
              rw [h] at h0
              simp only [] at h0
              simp [h0, hrec]

/-- C10: for every transport, endpoint and message, calling `chat` with
an empty conversation history builds exactly the same request payload as
calling it with the history omitted (`None`): `if conversation_history:`
is falsy for both, so the `conversationHistory` key is left out and the
two calls are observationally equivalent. -/
theorem chat_empty_history_eq_omitted (t : Transport) (url message : String) :
    chatPayload message (some []) = chatPayload message none ∧
    chat t url message (some []) = chat t url message none :=
  ⟨rfl, rfl⟩

/-- C1 counterexample: a chat call over a transport that fails at the
connection level does not raise an `APIError` with status 0 — the raw
`requests` exception propagates to the caller (the source wraps no RPC
call in a try/except). -/
theorem chat_conn_failure_raises_raw :
    chat failTransport "http://x" "hello" none = .error .requestsError :=
  rfl

/-- C1 amended: for every RPC operation (chat, get_context,
get_identity, refresh_context, get_conversation_history,
clear_conversation_history, flush, get_validation_stats, and the init
handshake), a connection-level failure or timeout propagates to the
caller as the raw transport exception; no `APIError` (and in particular
none with status 0) is raised on that path. -/
theorem rpc_conn_failure_propagates_raw (url message : String)
    (hist : Option (List LLMMessageR)) (optsDict : JVal) :
    chat failTransport url message hist = .error .requestsError ∧
    get_context failTransport url = .error .requestsError ∧
    get_identity failTransport url = .error .requestsError ∧
    refresh_context failTransport url = .error .requestsError ∧
    get_conversation_history failTransport url = .error .requestsError ∧
    clear_conversation_history failTransport url = .error .requestsError ∧
    flush failTransport url = .error .requestsError ∧
    get_validation_stats failTransport url = .error .requestsError ∧
    initRemoteRuntime failTransport url optsDict = .error .requestsError :=
  ⟨rfl, rfl, rfl, rfl, rfl, rfl, rfl, rfl, rfl⟩

/-- C3 counterexample: for a spawned child that ignores the terminate
signal (does not exit within the 5 s grace window of
`wait(timeout=5)`), the first teardown raises `TimeoutExpired`, the
second teardown raises again, and the terminate signal is delivered
twice — the handle is never cleared and `Popen.poll` still reports the
process alive. -/
theorem double_stop_stubborn_child :
    (stopLocalRuntime false (some spawnedProc)).2 = some .timeoutExpired ∧
    (stopLocalRuntime false
        (stopLocalRuntime false (some spawnedProc)).1).2
      = some .timeoutExpired ∧
    termSignalsOf (stopLocalRuntime false
        (stopLocalRuntime false (some spawnedProc)).1).1 = 2 :=
  ⟨rfl, rfl, rfl⟩

/-- C3 amended: provided the spawned child exits within the 5-second
grace period after the terminate signal, invoking teardown twice sends
the terminate signal exactly once and does not raise on either
invocation (the second call finds the process already reaped and
`Popen.terminate` does nothing); stopping a never-started supervisor
(no child spawned) is a no-op whatever the child behaviour parameter. -/
theorem stop_idempotent_cooperative_child :
    (∀ b : Bool, stopLocalRuntime b none = (none, none)) ∧
    (stopLocalRuntime true (some spawnedProc)).2 = none ∧
    (stopLocalRuntime true
        (stopLocalRuntime true (some spawnedProc)).1).2 = none ∧
    termSignalsOf (stopLocalRuntime true
        (stopLocalRuntime true (some spawnedProc)).1).1 = 1 :=
  ⟨fun _ => rfl, rfl, rfl, rfl⟩

/-- C2: evaluating construction at the failing input — a
local-supervised configuration whose child never answers the readiness
route (every probe fails at the connection level).  Construction raises
the lifecycle `RecallBricksError` as the claim states, but the spawned
child is left running: no terminate signal was delivered, and the
`atexit` cleanup hook was never registered (registration happens only
after a successful probe, and `_stop_local_runtime` is never called on
this path). -/
theorem local_start_failure_leaves_child_running :
    (agentRuntimeInit none failTransportT cfgLocalW).res
      = .error (.recallBricksError "Failed to start local runtime server") ∧
    (agentRuntimeInit none failTransportT cfgLocalW).spawns = 1 ∧
    (agentRuntimeInit none failTransportT cfgLocalW).proc = some spawnedProc ∧
    spawnedProc.exited = false ∧
    spawnedProc.termSignals = 0 ∧
    (agentRuntimeInit none failTransportT cfgLocalW).atexitRegistered = false :=
  ⟨rfl, rfl, rfl, rfl, rfl, rfl⟩

/-- C4 counterexample: a readiness probe answered with 204 No Content —
a 2xx success status — does not stop the polling loop, because the
source tests `response.status_code == 200`.  With a child answering 204
on attempt 1 and 200 afterwards, the success status first appears on
attempt 1 yet 2 probes are issued; with a child answering 204 forever,
all 30 probes are issued and construction fails, even though every
attempt returned a success status. -/
theorem probe_204_does_not_stop_polling :
    t204first 0 (healthRequest localRuntimeUrl)
      = .resp { status := 204, text := "No Content",
                jsonBody := some (.obj []) } ∧
    (agentRuntimeInit none t204first cfgLocalW).probes = 2 ∧
    (agentRuntimeInit none t204always cfgLocalW).probes = 30 ∧
    (agentRuntimeInit none t204always cfgLocalW).res
      = .error (.recallBricksError "Failed to start local runtime server") :=
  ⟨rfl, rfl, rfl, rfl⟩

/-- C4 amended: in local-supervised mode, construction spawns exactly
one child process and issues at most 30 readiness probes before
declaring failure; if the probe first returns HTTP 200 — the source's
readiness criterion, which is stricter than "a success status": 2xx
responses other than 200 do not stop the loop — on attempt k with
1 ≤ k ≤ 30, exactly k probes are issued and polling stops
immediately. -/
theorem local_construction_probe_budget (envKey : Option String)
    (t : TransportT) (cfg : Config) (hmode : cfg.use_local_runtime = true) :
    (agentRuntimeInit envKey t cfg).spawns = 1 ∧
    (agentRuntimeInit envKey t cfg).probes ≤ 30 ∧
    ∀ k, 1 ≤ k → k ≤ 30 →
      probeReadyAt t localRuntimeUrl (k - 1) = true →
      (∀ j, j < k - 1 → probeReadyAt t localRuntimeUrl j = false) →
      (agentRuntimeInit envKey t cfg).probes = k := by
  have hprobes : (agentRuntimeInit envKey t cfg).probes
      = (probeLoop t localRuntimeUrl 30 0).2 := by
    simp only [agentRuntimeInit, hmode, if_true, startLocalRuntime]
    split <;> rfl
  refine ⟨?_, ?_, ?_⟩
  · simp [agentRuntimeInit, hmode]
  · rw [hprobes]; exact probeLoop_snd_le t localRuntimeUrl 30 0
  · intro k hk1 hk30 hready hprev
    have hzero : (0 : Nat) + (k - 1) = k - 1 := Nat.zero_add _
    have hloop : probeLoop t localRuntimeUrl 30 0 = (true, (k - 1) + 1) := by
      apply probeLoop_first_success t localRuntimeUrl 30 (k - 1) 0 (by omega)
      · rw [hzero]; exact hready
      · intro b hb
        rw [Nat.zero_add]; exact hprev b hb
    rw [hprobes, hloop]
    simp
    omega

/-- C4 witness: with a child that answers the readiness route from the
third probe on, construction spawns one child and issues exactly 3
probes. -/
theorem local_construction_probe_budget_witness :
    (agentRuntimeInit none tReadyAt3 cfgLocalW).spawns = 1 ∧
    (agentRuntimeInit none tReadyAt3 cfgLocalW).probes = 3 := by
  have h := local_construction_probe_budget none tReadyAt3 cfgLocalW rfl
  exact ⟨h.1, h.2.2 3 (by decide) (by decide) (by decide) (by decide)⟩

/-- C6: in remote mode, construction issues exactly one HTTP request —
the init POST of the full configuration to the configured endpoint —
and if that request's response is non-success the construction raises
the typed `APIError` carrying the response's status and body text, so
no usable session object is returned to the caller. -/
theorem remote_construction_single_init (envKey : Option String)
    (t : TransportT) (cfg : Config) (hmode : cfg.use_local_runtime = false) :
    (agentRuntimeInit envKey t cfg).log
      = [initRequest cfg.api_url
           (optionsToDict (mkRuntimeOptions cfg envKey))] ∧
    ∀ rsp,
      t 0 (initRequest cfg.api_url (optionsToDict (mkRuntimeOptions cfg envKey)))
        = .resp rsp →
      rsp.status ≠ 200 →
      (agentRuntimeInit envKey t cfg).res
        = .error (.apiError ("Failed to initialize runtime: " ++ rsp.text)
            rsp.status) := by
  constructor
  · simp [agentRuntimeInit, hmode]
  · intro rsp ht hst
    simp [agentRuntimeInit, hmode, initRemoteRuntime, ht, hst]

/-- C6 witness: a backend answering 500 to the init POST makes remote
construction fail with `APIError` at status 500. -/
theorem remote_construction_single_init_witness :
    (agentRuntimeInit none t500 cfgRemoteW).res
      = .error (.apiError ("Failed to initialize runtime: " ++ "boom") 500) :=
  (remote_construction_single_init none t500 cfgRemoteW rfl).2
    { status := 500, text := "boom", jsonBody := none } rfl (by decide)

/-- C5 counterexample: a 2xx status other than 200 does not take the
success path — `get_context` on a 204 response raises `APIError` with
status 204 instead of decoding the body, because the source tests
`response.status_code != 200`, not membership in the 2xx class. -/
theorem get_context_204_raises :
    get_context
        (constResp { status := 204, text := "No Content",
                     jsonBody := some (.obj []) }) "http://x"
      = .error (.apiError ("Failed to get context: " ++ "No Content") 204) :=
  rfl

/-- C5 amended: for every RPC operation, success is exactly HTTP 200:
any response with a status other than 200 (2xx codes included) raises
`APIError` carrying the response's status code and body text; a 200
response takes the decode path instead of raising (shown for
`refresh_context`, which returns, and for `get_context`, which decodes
an empty body to an absent result). -/
theorem rpc_non200_raises_apiError (url message txt : String) (st : Nat)
    (jb : Option JVal) (hist : Option (List LLMMessageR)) (optsDict : JVal)
    (hst : st ≠ 200) :
    chat (constResp { status := st, text := txt, jsonBody := jb }) url message
        hist = .error (.apiError ("Chat request failed: " ++ txt) st) ∧
    get_context (constResp { status := st, text := txt, jsonBody := jb }) url
      = .error (.apiError ("Failed to get context: " ++ txt) st) ∧
    get_identity (constResp { status := st, text := txt, jsonBody := jb }) url
      = .error (.apiError ("Failed to get identity: " ++ txt) st) ∧
    refresh_context (constResp { status := st, text := txt, jsonBody := jb }) url
      = .error (.apiError ("Failed to refresh context: " ++ txt) st) ∧
    get_conversation_history
        (constResp { status := st, text := txt, jsonBody := jb }) url
      = .error (.apiError ("Failed to get history: " ++ txt) st) ∧
    clear_conversation_history
        (constResp { status := st, text := txt, jsonBody := jb }) url
      = .error (.apiError ("Failed to clear history: " ++ txt) st) ∧
    flush (constResp { status := st, text := txt, jsonBody := jb }) url
      = .error (.apiError ("Failed to flush: " ++ txt) st) ∧
    get_validation_stats
        (constResp { status := st, text := txt, jsonBody := jb }) url
      = .error (.apiError ("Failed to get validation stats: " ++ txt) st) ∧
    initRemoteRuntime (constResp { status := st, text := txt, jsonBody := jb })
        url optsDict
      = .error (.apiError ("Failed to initialize runtime: " ++ txt) st) ∧
    refresh_context (constResp { status := 200, text := txt, jsonBody := jb })
        url = .ok () ∧
    get_context (constResp ⟨200, txt, some (.obj [])⟩) url = .ok none := by
  refine ⟨?_, ?_, ?_, ?_, ?_, ?_, ?_, ?_, ?_, rfl, rfl⟩
  · simp [chat, constResp, hst]
  · simp [get_context, constResp, hst]
  · simp [get_identity, constResp, hst]
  · simp [refresh_context, constResp, hst]
  · simp [get_conversation_history, constResp, hst]
  · simp [clear_conversation_history, constResp, hst]
  · simp [flush, constResp, hst]
  · simp [get_validation_stats, constResp, hst]
  · simp [initRemoteRuntime, constResp, hst]

/-- C5 witness: instantiation at status 503 with body text
`backend down`. -/
theorem rpc_non200_raises_apiError_witness :
    chat (constResp { status := 503, text := "backend down", jsonBody := none })
        "http://x" "m" none
      = .error (.apiError ("Chat request failed: " ++ "backend down") 503) :=
  (rpc_non200_raises_apiError "http://x" "m" "backend down" 503 none none
    (.obj []) (by decide)).1

/-- C7 counterexample: constructing with empty agent and user
identifiers and negative cache TTL / token budget is accepted — the
constructor performs no validation, stores the violating configuration
verbatim, and returns a live session once the init handshake succeeds. -/
theorem construction_accepts_invalid_config :
    (agentRuntimeInit none t200 cfgInvalid).res
      = .ok { agent_id := "", user_id := "", api_url := "http://x",
              debug := false, use_local_runtime := false,
              options := mkRuntimeOptions cfgInvalid none,
              runtime_process := none, runtime_url := some "http://x" } ∧
    (mkRuntimeOptions cfgInvalid none).agent_id = "" ∧
    (mkRuntimeOptions cfgInvalid none).user_id = "" ∧
    (mkRuntimeOptions cfgInvalid none).cache_ttl = -1 ∧
    (mkRuntimeOptions cfgInvalid none).max_context_tokens = -1 :=
  ⟨rfl, rfl, rfl, rfl, rfl⟩

/-- C7 amended: construction performs no validation of the session
configuration: whatever values are passed — empty identifiers, negative
cache TTL or token budget included — the constructor stores them
verbatim in `RuntimeOptions` and returns a live session whenever the
init handshake answers 200. -/
theorem construction_stores_without_validation (envKey : Option String)
    (t : TransportT) (cfg : Config) (txt : String) (jb : Option JVal)
    (hmode : cfg.use_local_runtime = false)
    (hin : t 0 (initRequest cfg.api_url
          (optionsToDict (mkRuntimeOptions cfg envKey)))
        = .resp { status := 200, text := txt, jsonBody := jb }) :
    (agentRuntimeInit envKey t cfg).res
      = .ok { agent_id := cfg.agent_id, user_id := cfg.user_id,
              api_url := cfg.api_url, debug := cfg.debug,
              use_local_runtime := false,
              options := mkRuntimeOptions cfg envKey,
              runtime_process := none,
              runtime_url := some cfg.api_url } := by
  simp [agentRuntimeInit, hmode, initRemoteRuntime, hin]

/-- C7 witness: the invariant-violating configuration is stored and
accepted. -/
theorem construction_stores_without_validation_witness :
    (agentRuntimeInit none t200 cfgInvalid).res
      = .ok { agent_id := "", user_id := "", api_url := "http://x",
              debug := false, use_local_runtime := false,
              options := mkRuntimeOptions cfgInvalid none,
              runtime_process := none, runtime_url := some "http://x" } :=
  construction_stores_without_validation none t200 cfgInvalid "" (some (.obj []))
    rfl rfl

/-- C8: `get_context` against a backend whose 200 response body carries
no `context` field returns an absent result (`None`) and does not
raise: `data.get("context")` yields `None`, which is falsy, and the
method returns before touching any other field. -/
theorem get_context_absent_is_none (url txt : String)
    (fs : List (String × JVal)) (habs : jLookup "context" fs = none) :
    get_context (constResp ⟨200, txt, some (.obj fs)⟩) url = .ok none := by
  simp [get_context, constResp, pyGet, habs, optTruthy, bind, Except.bind]

/-- C8 witness: the empty 200 body decodes to an absent context. -/
theorem get_context_absent_is_none_witness :
    get_context (constResp ⟨200, "", some (.obj [])⟩) "http://y" = .ok none :=
  get_context_absent_is_none "http://y" "" [] rfl

/-- C9 counterexample: a successful chat whose body carries
`tokens_used: -5` returns metadata exposing `-5` — a negative value —
because the client stores the body's value without any check. -/
theorem chat_negative_tokens_accepted :
    chat (constResp ⟨200, "", some chatBodyNegTokens⟩) "http://x" "hello" none
      = .ok { response := .str "hi",
              metadata := { provider := .str "anthropic",
                            model := .str "claude",
                            context_loaded := .bool true,
                            identity_validated := .bool true,
                            auto_saved := .bool true,
                            tokens_used := some (.num (-5)) } } :=
  rfl

/-- C9 amended: the client exposes `tokens_used` exactly as the
response body provides it: when the key is present in the metadata
record the stored value is the body's value unchanged (so it is a
non-negative integer precisely when the body's value is), and when the
key is absent the field is `None`, not zero. -/
theorem chat_tokens_used_passthrough (url txt message : String) (rv : JVal)
    (fs : List (String × JVal))
    (hk : kwargsOk ["provider", "model", "context_loaded",
        "identity_validated", "auto_saved"] ["tokens_used"] fs = true) :
    chat (constResp ⟨200, txt,
          some (.obj [("response", rv), ("metadata", .obj fs)])⟩)
        url message none
      = .ok { response := rv,
              metadata := { provider := (jLookup "provider" fs).getD .null,
                            model := (jLookup "model" fs).getD .null,
                            context_loaded :=
                              (jLookup "context_loaded" fs).getD .null,
                            identity_validated :=
                              (jLookup "identity_validated" fs).getD .null,
                            auto_saved := (jLookup "auto_saved" fs).getD .null,
                            tokens_used := jLookup "tokens_used" fs } } := by
  simp [chat, constResp, pyIndex, jLookup, chatMetadataOfKwargs, hk, bind,
    Except.bind]

/-- C9 witness: a metadata record without the `tokens_used` key decodes
with the field absent (`None`). -/
theorem chat_tokens_used_passthrough_witness :
    chat (constResp ⟨200, "",
          some (.obj [("response", .str "hi"),
                      ("metadata", .obj metadataNoTokens)])⟩)
        "http://x" "hello" none
      = .ok { response := .str "hi",
              metadata := { provider := .str "anthropic",
                            model := .str "claude",
                            context_loaded := .bool true,
                            identity_validated := .bool true,
                            auto_saved := .bool true,
                            tokens_used := none } } := by
  have h := chat_tokens_used_passthrough "http://x" "" "hello" (.str "hi")
    metadataNoTokens (by decide)
  simpa [metadataNoTokens, jLookup] using h
